import Mathlib

/-!
Shallow embedding of the `news_digester` repository's presentation layer
(`src/presentation/controllers/AppController.ts`) and of the placeholder
domain/application classes (`ExampleUseCase`, `ExampleService`).

The browser DOM is modelled by the parts of it the controller touches:
the set of loaded platform names (`loadedConfigs`), the list of ids of the
`div` elements appended to the `platform-config` container
(`configChildren`), the visibility and inner HTML of the results area, the
console log, the list of alerts shown, and a log of `fetch` calls.
The `fetch` outcome is supplied by an environment so that every possible
network behaviour (ok, non-ok response, thrown error) is covered.
-/

/-- Outcome of `fetch('./src/presentation/views/<platform>.html')`:
a response with `ok` (carrying the HTML text), a response with `!ok`,
or a thrown error. -/
inductive FetchResult where
  | ok (html : String)
  | notOk
  | err
deriving DecidableEq, Repr

/-- Environment of the controller: which of the looked-up DOM elements
exist, and what the network returns for each platform. -/
structure Env where
  hasContainer : Bool
  hasResultsDiv : Bool
  hasResultsContent : Bool
  fetch : String → FetchResult

/-- Observable state of the controller and of the pieces of the DOM it
mutates. `fetchLog` records every platform for which `fetch` was called. -/
structure AppState where
  loadedConfigs : List String
  configChildren : List String
  resultsVisible : Bool
  resultsContent : String
  consoleLog : List String
  alerts : List String
  fetchLog : List String
deriving DecidableEq, Repr

/-- The state when the controller is constructed: empty `loadedConfigs`
set, no injected config divs, results hidden. -/
def initialState : AppState :=
  { loadedConfigs := []
    configChildren := []
    resultsVisible := false
    resultsContent := ""
    consoleLog := []
    alerts := []
    fetchLog := [] }

/-- The id given to the injected config div: `config-<platform>`. -/
def cfgId (platform : String) : String := "config-" ++ platform

/-- JavaScript `Set.add`: append iff not already a member
(insertion-order semantics). -/
def setAdd (l : List String) (x : String) : List String :=
  if x ∈ l then l else l ++ [x]

/-- `AppController.loadPlatformConfig`: return early when the config
container is missing or the platform is already in `loadedConfigs`;
otherwise fetch the fragment and, on an ok response, append a div with id
`config-<platform>` to the container and add the platform to the set; on a
non-ok response or a thrown error, log to the console. -/
def loadPlatformConfig (env : Env) (s : AppState) (platform : String) : AppState :=
  if !env.hasContainer || s.loadedConfigs.contains platform then s
  else
    let s1 := { s with fetchLog := s.fetchLog ++ [platform] }
    match env.fetch platform with
    | FetchResult.ok _html =>
        { s1 with
          configChildren := s1.configChildren ++ [cfgId platform]
          loadedConfigs := setAdd s1.loadedConfigs platform }
    | FetchResult.notOk =>
        { s1 with consoleLog := s1.consoleLog ++ ["Configuration not available for " ++ platform] }
    | FetchResult.err =>
        { s1 with consoleLog := s1.consoleLog ++ ["Error loading platform config:"] }

/-- `AppController.removePlatformConfig`: if an element with id
`config-<platform>` exists, remove it and delete the platform from
`loadedConfigs`; otherwise do nothing. -/
def removePlatformConfig (s : AppState) (platform : String) : AppState :=
  if (cfgId platform) ∈ s.configChildren then
    { s with
      configChildren := s.configChildren.erase (cfgId platform)
      loadedConfigs := s.loadedConfigs.erase platform }
  else s

/-- `AppController.handlePlatformToggle`: hide the results area (when the
results div exists), then load or remove the platform's config section
according to the checkbox state. -/
def handlePlatformToggle (env : Env) (s : AppState) (platform : String) (checked : Bool) : AppState :=
  let s1 := if env.hasResultsDiv then { s with resultsVisible := false } else s
  if checked then loadPlatformConfig env s1 platform
  else removePlatformConfig s1 platform

/-- Run a sequence of toggle events, each with its own environment. -/
def runToggles (s : AppState) : List (Env × String × Bool) → AppState
  | [] => s
  | (env, p, b) :: rest => runToggles (handlePlatformToggle env s p b) rest

/-- Value of `document.getElementById(id)?.value` for a form field:
`none` when the element is missing (JS `undefined`), otherwise the string
value. -/
abbrev FieldValue := Option String

/-- JavaScript falsiness of such a value: `undefined` and the empty
string are falsy. -/
def jsFalsy : FieldValue → Bool
  | none => true
  | some s => s.isEmpty

/-- JavaScript `v || d` for a field value and a string default. -/
def jsOr (v : FieldValue) (d : String) : String :=
  match v with
  | none => d
  | some s => if s.isEmpty then d else s

/-- The per-platform form inputs the controller reads by element id. -/
structure FormFields where
  twitterQuery : FieldValue
  twitterCount : FieldValue
  instagramUsername : FieldValue
  instagramType : FieldValue
  facebookPage : FieldValue
  facebookContent : FieldValue
  redditSubreddit : FieldValue
  redditSort : FieldValue
  redditLimit : FieldValue
deriving DecidableEq, Repr

/-- The `ScrapingConfig` object built by `getPlatformConfig`: the
`platform` key plus the platform-specific fields, in assignment order.
Fields assigned from an unguarded, undefaulted element read keep `Option`
(they are `undefined` when the element is missing). -/
inductive PlatformConfig where
  | twitter (query count : String)
  | instagram (username : String) (ty : FieldValue)
  | facebook (page : String) (contentType : FieldValue)
  | reddit (subreddit : String) (sort : FieldValue) (limit : String)
deriving DecidableEq, Repr

/-- The `platform` field of the config object. -/
def platformName : PlatformConfig → String
  | PlatformConfig.twitter _ _ => "twitter"
  | PlatformConfig.instagram _ _ => "instagram"
  | PlatformConfig.facebook _ _ => "facebook"
  | PlatformConfig.reddit _ _ _ => "reddit"

/-- `AppController.getPlatformConfig`: build the config object for a
platform, returning `null` when the platform's required field is falsy or
the platform is not one of the four known ones.  `count` defaults to
`'10'` and `limit` to `'25'` via `||`. -/
def getPlatformConfig (f : FormFields) (platform : String) : Option PlatformConfig :=
  match platform with
  | "twitter" =>
      if jsFalsy f.twitterQuery then none
      else some (PlatformConfig.twitter (f.twitterQuery.getD "") (jsOr f.twitterCount "10"))
  | "instagram" =>
      if jsFalsy f.instagramUsername then none
      else some (PlatformConfig.instagram (f.instagramUsername.getD "") f.instagramType)
  | "facebook" =>
      if jsFalsy f.facebookPage then none
      else some (PlatformConfig.facebook (f.facebookPage.getD "") f.facebookContent)
  | "reddit" =>
      if jsFalsy f.redditSubreddit then none
      else some (PlatformConfig.reddit (f.redditSubreddit.getD "") f.redditSort (jsOr f.redditLimit "25"))
  | _ => none

/-- `AppController.getSelectedPlatforms`: the values of the checked
checkboxes, in document order. -/
def getSelectedPlatforms (cbs : List (String × Bool)) : List String :=
  cbs.foldl (fun acc cb => if cb.2 then acc ++ [cb.1] else acc) []

/-- `AppController.getAllPlatformConfigs`: collect the non-null configs of
the given platforms, in order. -/
def getAllPlatformConfigs (f : FormFields) (platforms : List String) : List PlatformConfig :=
  platforms.foldl
    (fun acc p =>
      match getPlatformConfig f p with
      | some c => acc ++ [c]
      | none => acc)
    []

/-- Outcome of `AppController.handleSubmit`: one of the two alerts, or
scraping started with the collected configs. -/
inductive SubmitOutcome where
  | alertNoPlatform
  | alertMissingFields
  | scrape (configs : List PlatformConfig)
deriving DecidableEq, Repr

/-- The branch `handleSubmit` takes after `preventDefault`. -/
def handleSubmit (cbs : List (String × Bool)) (f : FormFields) : SubmitOutcome :=
  let selected := getSelectedPlatforms cbs
  if selected.isEmpty then SubmitOutcome.alertNoPlatform
  else
    let configs := getAllPlatformConfigs f selected
    if configs.isEmpty then SubmitOutcome.alertMissingFields
    else SubmitOutcome.scrape configs

/-- One hexadecimal digit. -/
def hexDigit (n : Nat) : Char :=
  if n < 10 then Char.ofNat (48 + n) else Char.ofNat (87 + n)

/-- `JSON.stringify` escaping of one character of a string value. -/
def jsonEscapeChar (c : Char) : String :=
  if c = '\"' then "\\\""
  else if c = '\\' then "\\\\"
  else if c = '\n' then "\\n"
  else if c = '\r' then "\\r"
  else if c = '\t' then "\\t"
  else if c = Char.ofNat 8 then "\\b"
  else if c = Char.ofNat 12 then "\\f"
  else if c.toNat < 32 then
    "\\u00" ++ String.mk [hexDigit (c.toNat / 16), hexDigit (c.toNat % 16)]
  else String.singleton c

/-- A JSON string literal for a string value. -/
def jsonStr (s : String) : String :=
  "\"" ++ String.join (s.data.map jsonEscapeChar) ++ "\""

/-- A key that is only present when its value is defined:
`JSON.stringify` omits keys whose value is `undefined`. -/
def optPair (k : String) : FieldValue → List (String × String)
  | some v => [(k, v)]
  | none => []

/-- The key/value pairs of the config object, in insertion order
(`platform` first, then the fields in assignment order). -/
def configPairs : PlatformConfig → List (String × String)
  | PlatformConfig.twitter q c =>
      [("platform", "twitter"), ("query", q), ("count", c)]
  | PlatformConfig.instagram u t =>
      [("platform", "instagram"), ("username", u)] ++ optPair "type" t
  | PlatformConfig.facebook p ct =>
      [("platform", "facebook"), ("page", p)] ++ optPair "contentType" ct
  | PlatformConfig.reddit sb so l =>
      [("platform", "reddit"), ("subreddit", sb)] ++ optPair "sort" so ++ [("limit", l)]

/-- `JSON.stringify(obj, null, 2)` for a flat object of string values. -/
def jsonStringifyFlat (pairs : List (String × String)) : String :=
  match pairs with
  | [] => "\x7b\x7d"
  | _ =>
      "\x7b\n"
        ++ String.intercalate ",\n"
            (pairs.map fun kv => "  " ++ jsonStr kv.1 ++ ": " ++ jsonStr kv.2)
        ++ "\n\x7d"

/-- `JSON.stringify(config, null, 2)`. -/
def stringifyConfig (c : PlatformConfig) : String :=
  jsonStringifyFlat (configPairs c)

/-- `config.platform.charAt(0).toUpperCase() + config.platform.slice(1)`. -/
def capitalizeFirst (s : String) : String :=
  match s.data with
  | [] => ""
  | c :: rest => String.mk (c.toUpper :: rest)

/-- The loading template written into the results area before the timer
fires (template literal of `startScraping` with `platformsList`
interpolated). -/
def loadingHTML (configs : List PlatformConfig) : String :=
  "\n        <div class=\"text-center\">\n          <div class=\"spinner-border text-primary\" role=\"status\">\n            <span class=\"visually-hidden\">Loading...</span>\n          </div>\n          <p class=\"mt-3\">Scraping "
    ++ String.intercalate ", " (configs.map platformName)
    ++ "...</p>\n        </div>\n      "

/-- The part of a result block before the JSON dump. -/
def blockPre (index : Nat) (c : PlatformConfig) : String :=
  "\n              <div class=\"mb-4 "
    ++ (if index > 0 then "border-top pt-3" else "")
    ++ "\">\n                <h6 class=\"text-primary\">"
    ++ capitalizeFirst (platformName c)
    ++ "</h6>\n                <p class=\"text-success\"><strong>Scraping completed!</strong></p>\n                <pre class=\"bg-light p-3 rounded small\">"

/-- The part of a result block after the JSON dump. -/
def blockSuf : String :=
  "</pre>\n              </div>\n            "

/-- One block of the final results HTML (template literal appended inside
the `forEach`). -/
def blockHTML (index : Nat) (c : PlatformConfig) : String :=
  blockPre index c ++ stringifyConfig c ++ blockSuf

/-- The heading the results HTML starts with. -/
def resultsHeader : String :=
  "<h5 class=\"card-title\">Scraping Results</h5>"

/-- The trailing note appended after all blocks. -/
def resultsFooter : String :=
  "<p class=\"text-muted small mt-3\">Scraping functionality to be implemented</p>"

/-- The results HTML written when the timer fires: header, then one block
per config in list order (string concatenation in a `forEach`), then the
footer. -/
def scrapeResultsHTML (configs : List PlatformConfig) : String :=
  (configs.enum.foldl (fun acc ic => acc ++ blockHTML ic.1 ic.2) resultsHeader)
    ++ resultsFooter

/-- What one run of `AppController.startScraping` does, in order: show the
loading state, schedule a timer, and when it fires write the final
results HTML. -/
structure ScrapeRun where
  loading : String
  delayMs : Nat
  finalHTML : String
deriving DecidableEq, Repr

/-- `AppController.startScraping`: return early (`none`) when the results
div or results content element is missing; otherwise display the loading
state and schedule the 2000 ms timer that writes the echoed configs. -/
def startScraping (env : Env) (configs : List PlatformConfig) : Option ScrapeRun :=
  if !env.hasResultsDiv || !env.hasResultsContent then none
  else
    some
      { loading := loadingHTML configs
        delayMs := 2000
        finalHTML := scrapeResultsHTML configs }

/-- `AppController.handleSubmit` acting on the observable state: alerts
append to the alert list; the scrape branch shows the results area with
the loading HTML and returns the scheduled run. -/
def handleSubmitStep (env : Env) (cbs : List (String × Bool)) (f : FormFields) (s : AppState) :
    AppState × Option ScrapeRun :=
  match handleSubmit cbs f with
  | SubmitOutcome.alertNoPlatform =>
      ({ s with alerts := s.alerts ++ ["Please select at least one platform"] }, none)
  | SubmitOutcome.alertMissingFields =>
      ({ s with alerts := s.alerts ++ ["Please fill in all required fields for selected platforms"] }, none)
  | SubmitOutcome.scrape configs =>
      match startScraping env configs with
      | none => (s, none)
      | some run =>
          ({ s with resultsVisible := true, resultsContent := run.loading }, some run)

/-- `ExampleUseCase.execute` (`src/domain/usecases/ExampleUseCase.ts`):
returns the template literal `Processed: ${message}`. -/
def ExampleUseCase.execute (message : String) : String :=
  "Processed: " ++ message

/-- `ExampleService.processMessage`: awaits and returns
`this.useCase.execute(message)`. -/
def ExampleService.processMessage (message : String) : String :=
  ExampleUseCase.execute message

/-- The strings `parts` occur, in order and without overlap, inside `s`. -/
def containsInOrder : List String → String → Prop
  | [], _ => True
  | p :: ps, s => ∃ a b, s = a ++ p ++ b ∧ containsInOrder ps b

/-- Invariant relating the `loadedConfigs` set to the injected DOM
elements: both are duplicate-free and a platform is in the set exactly
when its config div is in the container. -/
def DomInv (s : AppState) : Prop :=
  s.loadedConfigs.Nodup ∧ s.configChildren.Nodup ∧
    ∀ p, p ∈ s.loadedConfigs ↔ cfgId p ∈ s.configChildren

/-- An environment in which every fragment fetch succeeds. -/
def envFetchOk : Env :=
  { hasContainer := true
    hasResultsDiv := true
    hasResultsContent := true
    fetch := fun _ => FetchResult.ok "<p>config</p>" }

/-- A state in which the twitter fragment is already loaded. -/
def sTwitterLoaded : AppState :=
  { initialState with loadedConfigs := ["twitter"], configChildren := ["config-twitter"] }

/-- A form in which no element has been injected yet: every read is
`undefined`. -/
def fAllNone : FormFields :=
  { twitterQuery := none, twitterCount := none, instagramUsername := none
    instagramType := none, facebookPage := none, facebookContent := none
    redditSubreddit := none, redditSort := none, redditLimit := none }

/-- A filled form: the twitter query is set (count left empty), and the
other platforms' fields are filled too. -/
def fFull : FormFields :=
  { twitterQuery := some "lean", twitterCount := some ""
    instagramUsername := some "alice", instagramType := some "posts"
    facebookPage := some "news", facebookContent := some "videos"
    redditSubreddit := some "programming", redditSort := some "hot"
    redditLimit := none }

/-- Checkbox state with twitter and instagram checked. -/
def cexCheckboxes : List (String × Bool) := [("twitter", true), ("instagram", true)]

/-- A form where twitter's required query is filled but instagram's
required username is the empty string. -/
def cexFields : FormFields :=
  { twitterQuery := some "cats", twitterCount := none
    instagramUsername := some "", instagramType := some "posts"
    facebookPage := none, facebookContent := none
    redditSubreddit := none, redditSort := none, redditLimit := none }

/-- Checkbox state in which nothing is checked. -/
def uncheckedBoxes : List (String × Bool) := [("twitter", false), ("reddit", false)]

/-- The ids `config-<p>` are distinct for distinct platforms. -/
theorem cfgId_inj {p q : String} (h : cfgId p = cfgId q) : p = q := by
  have hd := congrArg String.data h
  simp [cfgId, String.data_append] at hd
  exact String.ext hd

theorem nodup_append_singleton {l : List String} {x : String} (h : l.Nodup) (hx : x ∉ l) :
    (l ++ [x]).Nodup := by
  rw [List.nodup_append]
  refine ⟨h, List.nodup_singleton x, ?_⟩
  intro a ha hax
  rw [List.mem_singleton] at hax
  exact hx (hax ▸ ha)

theorem domInv_load (env : Env) (s : AppState) (p : String) (h : DomInv s) :
    DomInv (loadPlatformConfig env s p) := by
  obtain ⟨h1, h2, h3⟩ := h
  by_cases hg : (!env.hasContainer || s.loadedConfigs.contains p) = true
  · simp only [loadPlatformConfig, hg, if_true]
    exact ⟨h1, h2, h3⟩
  · have hmem : p ∉ s.loadedConfigs := fun hm => hg (by simp [hm])
    have hdom : cfgId p ∉ s.configChildren := fun hc => hmem ((h3 p).2 hc)
    rw [Bool.not_eq_true] at hg
    simp only [loadPlatformConfig, hg, Bool.false_eq_true, if_false]
    cases hf : env.fetch p with
    | ok html =>
        have hset : setAdd s.loadedConfigs p = s.loadedConfigs ++ [p] := by
          simp [setAdd, hmem]
        refine ⟨?_, ?_, ?_⟩
        · show (setAdd s.loadedConfigs p).Nodup
          rw [hset]
          exact nodup_append_singleton h1 hmem
        · show (s.configChildren ++ [cfgId p]).Nodup
          exact nodup_append_singleton h2 hdom
        · intro q
          show q ∈ setAdd s.loadedConfigs p ↔ cfgId q ∈ s.configChildren ++ [cfgId p]
          rw [hset]
          simp only [List.mem_append, List.mem_singleton]
          constructor
          · rintro (hq | rfl)
            · exact Or.inl ((h3 q).1 hq)
            · exact Or.inr rfl
          · rintro (hq | hq)
            · exact Or.inl ((h3 q).2 hq)
            · exact Or.inr (cfgId_inj hq)
    | notOk => exact ⟨h1, h2, h3⟩
    | err => exact ⟨h1, h2, h3⟩

theorem domInv_remove (s : AppState) (p : String) (h : DomInv s) :
    DomInv (removePlatformConfig s p) := by
  obtain ⟨h1, h2, h3⟩ := h
  unfold removePlatformConfig
  split
  · refine ⟨h1.erase p, h2.erase (cfgId p), ?_⟩
    intro q
    rw [h1.mem_erase_iff, h2.mem_erase_iff]
    constructor
    · rintro ⟨hne, hq⟩
      exact ⟨fun hc => hne (cfgId_inj hc), (h3 q).1 hq⟩
    · rintro ⟨hne, hq⟩
      exact ⟨fun hc => hne (congrArg cfgId hc), (h3 q).2 hq⟩
  · exact ⟨h1, h2, h3⟩

theorem domInv_toggle (env : Env) (s : AppState) (p : String) (b : Bool) (h : DomInv s) :
    DomInv (handlePlatformToggle env s p b) := by
  have hs1 : DomInv (if env.hasResultsDiv then { s with resultsVisible := false } else s) := by
    split
    · exact h
    · exact h
  unfold handlePlatformToggle
  cases b
  · exact domInv_remove _ _ hs1
  · exact domInv_load _ _ _ hs1

theorem domInv_run (ops : List (Env × String × Bool)) :
    ∀ s : AppState, DomInv s → DomInv (runToggles s ops) := by
  induction ops with
  | nil => intro s h; exact h
  | cons op rest ih =>
      intro s h
      obtain ⟨env, p, b⟩ := op
      exact ih _ (domInv_toggle env s p b h)

/-- Claim C9: after any sequence of `handlePlatformToggle` calls from the
initial empty state, a platform is in the `loadedConfigs` set if and only
if the document contains an element with id `config-<platform>`. -/
theorem runToggles_loaded_iff_dom (ops : List (Env × String × Bool)) (p : String) :
    p ∈ (runToggles initialState ops).loadedConfigs ↔
      cfgId p ∈ (runToggles initialState ops).configChildren := by
  have h0 : DomInv initialState := by
    refine ⟨List.nodup_nil, List.nodup_nil, ?_⟩
    intro q
    simp [initialState]
  exact (domInv_run ops initialState h0).2.2 p

theorem loadPlatformConfig_noop (env : Env) (s : AppState) (p : String)
    (h : env.hasContainer = false ∨ p ∈ s.loadedConfigs) :
    loadPlatformConfig env s p = s := by
  have hg : (!env.hasContainer || s.loadedConfigs.contains p) = true := by
    rcases h with hc | hm
    · simp [hc]
    · simp [hm]
  simp only [loadPlatformConfig, hg, if_true]

/-- Claim C1: `loadPlatformConfig` fetches and injects a platform's
fragment only when the config container exists and the platform is not in
`loadedConfigs`; once the platform is in the set (or the container is
missing) a call leaves everything unchanged and performs no fetch, so a
loaded platform's fragment is fetched at most once. -/
theorem loadPlatformConfig_fetch_once (env : Env) (s : AppState) (p : String) :
    ((env.hasContainer = false ∨ p ∈ s.loadedConfigs) → loadPlatformConfig env s p = s)
    ∧ (∀ html, env.hasContainer = true → p ∉ s.loadedConfigs →
        env.fetch p = FetchResult.ok html →
        loadPlatformConfig env s p =
          { s with
            fetchLog := s.fetchLog ++ [p]
            configChildren := s.configChildren ++ [cfgId p]
            loadedConfigs := s.loadedConfigs ++ [p] })
    ∧ ((loadPlatformConfig env s p).fetchLog ≠ s.fetchLog →
        env.hasContainer = true ∧ p ∉ s.loadedConfigs) := by
  refine ⟨loadPlatformConfig_noop env s p, ?_, ?_⟩
  · intro html hc hm hf
    have hg : (!env.hasContainer || s.loadedConfigs.contains p) = false := by
      simp [hc, hm]
    simp only [loadPlatformConfig, hg, Bool.false_eq_true, if_false, hf]
    simp [setAdd, hm]
  · intro hne
    by_cases hc : env.hasContainer = true
    · by_cases hm : p ∈ s.loadedConfigs
      · exact absurd (congrArg AppState.fetchLog (loadPlatformConfig_noop env s p (Or.inr hm))) hne
      · exact ⟨hc, hm⟩
    · rw [Bool.not_eq_true] at hc
      exact absurd (congrArg AppState.fetchLog (loadPlatformConfig_noop env s p (Or.inl hc))) hne

theorem loadPlatformConfig_fetch_once_witness :
    loadPlatformConfig envFetchOk sTwitterLoaded "twitter" = sTwitterLoaded :=
  (loadPlatformConfig_fetch_once envFetchOk sTwitterLoaded "twitter").1
    (Or.inr (by decide))

/-- Claim C4: toggling a platform off removes the element with id
`config-<platform>` from the document and deletes the platform from
`loadedConfigs`; when no such element exists, both are left unchanged. -/
theorem removePlatformConfig_spec (s : AppState) (p : String) :
    (cfgId p ∈ s.configChildren →
      removePlatformConfig s p =
        { s with
          configChildren := s.configChildren.erase (cfgId p)
          loadedConfigs := s.loadedConfigs.erase p })
    ∧ (cfgId p ∉ s.configChildren → removePlatformConfig s p = s) := by
  constructor
  · intro h
    simp only [removePlatformConfig, if_pos h]
  · intro h
    simp only [removePlatformConfig, if_neg h]

theorem removePlatformConfig_spec_witness :
    removePlatformConfig sTwitterLoaded "twitter" =
      { sTwitterLoaded with
        configChildren := sTwitterLoaded.configChildren.erase (cfgId "twitter")
        loadedConfigs := sTwitterLoaded.loadedConfigs.erase "twitter" } :=
  (removePlatformConfig_spec sTwitterLoaded "twitter").1 (by decide)

/-- Claim C5: when the fragment fetch fails (non-ok response or thrown
error) while the guard allowed a fetch, `loadPlatformConfig` appends one
console message and leaves everything else unchanged: the platform is not
added to `loadedConfigs`, nothing is appended to the container, and no
alert is shown. -/
theorem loadPlatformConfig_error_silent (env : Env) (s : AppState) (p : String)
    (hc : env.hasContainer = true) (hm : p ∉ s.loadedConfigs) :
    (env.fetch p = FetchResult.notOk →
      loadPlatformConfig env s p =
        { s with
          fetchLog := s.fetchLog ++ [p]
          consoleLog := s.consoleLog ++ ["Configuration not available for " ++ p] })
    ∧ (env.fetch p = FetchResult.err →
      loadPlatformConfig env s p =
        { s with
          fetchLog := s.fetchLog ++ [p]
          consoleLog := s.consoleLog ++ ["Error loading platform config:"] }) := by
  have hg : (!env.hasContainer || s.loadedConfigs.contains p) = false := by
    simp [hc, hm]
  constructor
  · intro hf
    simp only [loadPlatformConfig, hg, Bool.false_eq_true, if_false, hf]
  · intro hf
    simp only [loadPlatformConfig, hg, Bool.false_eq_true, if_false, hf]

/-- An environment whose fetches all return a non-ok response. -/
def envFetchNotOk : Env :=
  { hasContainer := true
    hasResultsDiv := true
    hasResultsContent := true
    fetch := fun _ => FetchResult.notOk }

theorem loadPlatformConfig_error_silent_witness :
    loadPlatformConfig envFetchNotOk initialState "twitter" =
      { initialState with
        fetchLog := initialState.fetchLog ++ ["twitter"]
        consoleLog := initialState.consoleLog ++ ["Configuration not available for twitter"] } :=
  (loadPlatformConfig_error_silent envFetchNotOk initialState "twitter" rfl
    (by decide)).1 rfl

theorem selected_foldl_unchecked (cbs : List (String × Bool)) (acc : List String)
    (h : ∀ cb ∈ cbs, cb.2 = false) :
    cbs.foldl (fun acc cb => if cb.2 then acc ++ [cb.1] else acc) acc = acc := by
  induction cbs generalizing acc with
  | nil => rfl
  | cons cb rest ih =>
      have hcb : cb.2 = false := h cb (List.mem_cons_self _ _)
      rw [List.foldl_cons, if_neg (by simp [hcb])]
      exact ih acc (fun x hx => h x (List.mem_cons_of_mem _ hx))

/-- Claim C3: submitting with no platform checkbox checked shows the
`Please select at least one platform` alert and nothing else changes: the
results area, `loadedConfigs`, the injected config divs are untouched and
no scrape run is scheduled. -/
theorem handleSubmit_no_platform (env : Env) (cbs : List (String × Bool))
    (f : FormFields) (s : AppState) (h : ∀ cb ∈ cbs, cb.2 = false) :
    handleSubmitStep env cbs f s =
      ({ s with alerts := s.alerts ++ ["Please select at least one platform"] }, none) := by
  have hsel : getSelectedPlatforms cbs = [] := selected_foldl_unchecked cbs [] h
  simp only [handleSubmitStep, handleSubmit, hsel, List.isEmpty_nil, if_true]

theorem handleSubmit_no_platform_witness :
    handleSubmitStep envFetchOk uncheckedBoxes fAllNone initialState =
      ({ initialState with
          alerts := initialState.alerts ++ ["Please select at least one platform"] }, none) :=
  handleSubmit_no_platform envFetchOk uncheckedBoxes fAllNone initialState (by decide)

/-- Counterexample to claim C2 as stated: twitter and instagram are both
selected, instagram's required username is empty, yet `handleSubmit` does
not alert: it starts scraping with the twitter config only, silently
dropping instagram. -/
theorem handleSubmit_partial_missing_scrapes :
    getSelectedPlatforms cexCheckboxes = ["twitter", "instagram"]
    ∧ getPlatformConfig cexFields "instagram" = none
    ∧ handleSubmit cexCheckboxes cexFields =
        SubmitOutcome.scrape [PlatformConfig.twitter "cats" "10"] := by
  refine ⟨rfl, rfl, rfl⟩

/-- Claim C2 as amended: the blocking alert fires exactly when every
selected platform is missing its required field, i.e. when no config at
all is collected (and at least one platform is selected); scraping is not
started and only the alert list changes. -/
theorem handleSubmit_all_missing_alerts (env : Env) (cbs : List (String × Bool))
    (f : FormFields) (s : AppState)
    (hsel : getSelectedPlatforms cbs ≠ [])
    (hcfg : getAllPlatformConfigs f (getSelectedPlatforms cbs) = []) :
    handleSubmitStep env cbs f s =
      ({ s with
          alerts := s.alerts ++ ["Please fill in all required fields for selected platforms"] },
        none) := by
  have h1 : (getSelectedPlatforms cbs).isEmpty = false := by
    cases hs : getSelectedPlatforms cbs with
    | nil => exact absurd hs hsel
    | cons a l => rfl
  simp only [handleSubmitStep, handleSubmit, h1, Bool.false_eq_true, if_false, hcfg,
    List.isEmpty_nil, if_true]

theorem handleSubmit_all_missing_alerts_witness :
    handleSubmitStep envFetchOk [("twitter", true)] fAllNone initialState =
      ({ initialState with
          alerts := initialState.alerts ++
            ["Please fill in all required fields for selected platforms"] },
        none) :=
  handleSubmit_all_missing_alerts envFetchOk [("twitter", true)] fAllNone initialState
    (by decide) (by decide)

theorem jsFalsy_some_ne {q : String} (h : q ≠ "") : jsFalsy (some q) = false := by
  simp only [jsFalsy]
  rw [Bool.eq_false_iff]
  intro hh
  exact h ((String.isEmpty_iff q).mp hh)

theorem jsOr_falsy (v : FieldValue) (d : String) (h : jsFalsy v = true) : jsOr v d = d := by
  cases v with
  | none => rfl
  | some s =>
      simp only [jsFalsy] at h
      simp [jsOr, h]

/-- Claim C6: for each supported platform whose required field is a
non-empty string (and whose other elements are present), `getPlatformConfig`
returns the config keyed by the platform name with exactly the
platform-specific fields — query/count for twitter, username/type for
instagram, page/contentType for facebook, subreddit/sort/limit for reddit —
with `count` defaulting to `10` and `limit` to `25` when left empty. -/
theorem getPlatformConfig_fields (f : FormFields) :
    (∀ q, f.twitterQuery = some q → q ≠ "" →
      getPlatformConfig f "twitter" =
          some (PlatformConfig.twitter q (jsOr f.twitterCount "10"))
        ∧ configPairs (PlatformConfig.twitter q (jsOr f.twitterCount "10")) =
            [("platform", "twitter"), ("query", q), ("count", jsOr f.twitterCount "10")]
        ∧ (jsFalsy f.twitterCount = true → jsOr f.twitterCount "10" = "10"))
    ∧ (∀ u t, f.instagramUsername = some u → u ≠ "" → f.instagramType = some t →
      getPlatformConfig f "instagram" = some (PlatformConfig.instagram u (some t))
        ∧ configPairs (PlatformConfig.instagram u (some t)) =
            [("platform", "instagram"), ("username", u), ("type", t)])
    ∧ (∀ pg ct, f.facebookPage = some pg → pg ≠ "" → f.facebookContent = some ct →
      getPlatformConfig f "facebook" = some (PlatformConfig.facebook pg (some ct))
        ∧ configPairs (PlatformConfig.facebook pg (some ct)) =
            [("platform", "facebook"), ("page", pg), ("contentType", ct)])
    ∧ (∀ sb so, f.redditSubreddit = some sb → sb ≠ "" → f.redditSort = some so →
      getPlatformConfig f "reddit" =
          some (PlatformConfig.reddit sb (some so) (jsOr f.redditLimit "25"))
        ∧ configPairs (PlatformConfig.reddit sb (some so) (jsOr f.redditLimit "25")) =
            [("platform", "reddit"), ("subreddit", sb), ("sort", so),
              ("limit", jsOr f.redditLimit "25")]
        ∧ (jsFalsy f.redditLimit = true → jsOr f.redditLimit "25" = "25")) := by
  refine ⟨?_, ?_, ?_, ?_⟩
  · intro q hq hne
    refine ⟨?_, rfl, fun hf => jsOr_falsy _ _ hf⟩
    simp [getPlatformConfig, hq, jsFalsy_some_ne hne]
  · intro u t hu hne ht
    refine ⟨?_, rfl⟩
    simp [getPlatformConfig, hu, ht, jsFalsy_some_ne hne]
  · intro pg ct hp hne hct
    refine ⟨?_, rfl⟩
    simp [getPlatformConfig, hp, hct, jsFalsy_some_ne hne]
  · intro sb so hs hne hso
    refine ⟨?_, rfl, fun hf => jsOr_falsy _ _ hf⟩
    simp [getPlatformConfig, hs, hso, jsFalsy_some_ne hne]

theorem getPlatformConfig_fields_witness :
    getPlatformConfig fFull "twitter" =
        some (PlatformConfig.twitter "lean" (jsOr fFull.twitterCount "10"))
    ∧ getPlatformConfig fFull "reddit" =
        some (PlatformConfig.reddit "programming" (some "hot") (jsOr fFull.redditLimit "25")) :=
  ⟨((getPlatformConfig_fields fFull).1 "lean" rfl (by decide)).1,
    ((getPlatformConfig_fields fFull).2.2.2 "programming" "hot" rfl (by decide) rfl).1⟩

/-- Claim C8: `ExampleService.processMessage` is a pass-through to
`ExampleUseCase.execute`, which returns `Processed: ` followed by the
message. -/
theorem processMessage_passthrough (m : String) :
    ExampleService.processMessage m = ExampleUseCase.execute m
    ∧ ExampleUseCase.execute m = "Processed: " ++ m :=
  ⟨rfl, rfl⟩

/-- Claim C10: a platform other than the four known ones yields a `null`
config, and `getAllPlatformConfigs` silently drops it from the collected
list: inserting it anywhere in the selected platforms leaves the result
unchanged. -/
theorem getPlatformConfig_unknown (p : String)
    (h1 : p ≠ "twitter") (h2 : p ≠ "instagram") (h3 : p ≠ "facebook") (h4 : p ≠ "reddit")
    (f : FormFields) :
    getPlatformConfig f p = none
    ∧ ∀ ps qs, getAllPlatformConfigs f (ps ++ p :: qs) = getAllPlatformConfigs f (ps ++ qs) := by
  have hnone : getPlatformConfig f p = none := by
    unfold getPlatformConfig
    split <;> simp_all
  refine ⟨hnone, ?_⟩
  intro ps qs
  unfold getAllPlatformConfigs
  rw [List.foldl_append, List.foldl_append, List.foldl_cons, hnone]

theorem getPlatformConfig_unknown_witness :
    getPlatformConfig fFull "linkedin" = none
    ∧ getAllPlatformConfigs fFull (["twitter"] ++ "linkedin" :: ["reddit"]) =
        getAllPlatformConfigs fFull (["twitter"] ++ ["reddit"]) :=
  ⟨(getPlatformConfig_unknown "linkedin" (by decide) (by decide) (by decide) (by decide)
      fFull).1,
    (getPlatformConfig_unknown "linkedin" (by decide) (by decide) (by decide) (by decide)
      fFull).2 ["twitter"] ["reddit"]⟩

theorem foldl_block_shift (l : List (Nat × PlatformConfig)) :
    ∀ a : String,
      l.foldl (fun x ic => x ++ blockHTML ic.1 ic.2) a
        = a ++ l.foldl (fun x ic => x ++ blockHTML ic.1 ic.2) "" := by
  induction l with
  | nil => intro a; exact (String.append_empty a).symm
  | cons ic rest ih =>
      intro a
      rw [List.foldl_cons, List.foldl_cons, ih (a ++ blockHTML ic.1 ic.2),
        ih ("" ++ blockHTML ic.1 ic.2), String.empty_append, String.append_assoc]

theorem containsInOrder_foldl (l : List (Nat × PlatformConfig)) :
    ∀ pre post : String,
      containsInOrder (l.map fun ic => stringifyConfig ic.2)
        (pre ++ l.foldl (fun x ic => x ++ blockHTML ic.1 ic.2) "" ++ post) := by
  induction l with
  | nil => intro pre post; exact trivial
  | cons ic rest ih =>
      intro pre post
      have hf : ((ic :: rest).foldl (fun x ic => x ++ blockHTML ic.1 ic.2) "")
          = blockHTML ic.1 ic.2 ++ rest.foldl (fun x ic => x ++ blockHTML ic.1 ic.2) "" := by
        rw [List.foldl_cons, foldl_block_shift rest, String.empty_append]
      rw [List.map_cons, hf]
      refine ⟨pre ++ blockPre ic.1 ic.2,
        blockSuf ++ rest.foldl (fun x ic => x ++ blockHTML ic.1 ic.2) "" ++ post, ?_, ?_⟩
      · simp only [blockHTML, String.append_assoc]
      · exact ih blockSuf post

/-- Claim C7: when the results elements exist and the collected config
list is non-empty, `startScraping` schedules exactly one run that first
shows the loading state, waits a fixed 2000 ms timer, and then writes a
results HTML in which the `JSON.stringify` serialization of each collected
config appears, one block per config, in list order. -/
theorem startScraping_echoes_configs (env : Env) (configs : List PlatformConfig)
    (hd : env.hasResultsDiv = true) (hc : env.hasResultsContent = true)
    (hne : configs ≠ []) :
    ∃ run : ScrapeRun,
      startScraping env configs = some run
      ∧ run.delayMs = 2000
      ∧ run.loading = loadingHTML configs
      ∧ run.finalHTML = scrapeResultsHTML configs
      ∧ containsInOrder (configs.map stringifyConfig) run.finalHTML := by
  refine ⟨{ loading := loadingHTML configs, delayMs := 2000,
            finalHTML := scrapeResultsHTML configs }, ?_, rfl, rfl, rfl, ?_⟩
  · simp [startScraping, hd, hc]
  · show containsInOrder (configs.map stringifyConfig) (scrapeResultsHTML configs)
    have hm : configs.map stringifyConfig = configs.enum.map fun ic => stringifyConfig ic.2 := by
      conv_lhs => rw [← List.enum_map_snd configs]
      rw [List.map_map]
      rfl
    unfold scrapeResultsHTML
    rw [foldl_block_shift configs.enum resultsHeader, hm]
    exact containsInOrder_foldl configs.enum resultsHeader resultsFooter

theorem startScraping_echoes_configs_witness :
    ∃ run : ScrapeRun,
      startScraping envFetchOk [PlatformConfig.twitter "cats" "10"] = some run
      ∧ run.delayMs = 2000
      ∧ run.loading = loadingHTML [PlatformConfig.twitter "cats" "10"]
      ∧ run.finalHTML = scrapeResultsHTML [PlatformConfig.twitter "cats" "10"]
      ∧ containsInOrder
          ([PlatformConfig.twitter "cats" "10"].map stringifyConfig) run.finalHTML :=
  startScraping_echoes_configs envFetchOk [PlatformConfig.twitter "cats" "10"] rfl rfl
    (by decide)
